import Mathlib

set_option maxRecDepth 40000

/-!
Verification of the PersonalFinanceManager HTTP micro-services.

The repository has two small C++ programs, the Analytics Engine
(services/analytics-engine/src/main.cpp) and the Reporting Engine
(services/reporting-engine/src/main.cpp).  Each binds TCP port 8080,
accepts connections, reads one request into a buffer and writes back a
hard-coded HTTP/1.1 response.

Shallow embedding:
  - the Analytics Engine parses the buffer with `istringstream >> method
    >> path >> version`; we model that extraction as whitespace
    tokenisation over `List Char` (`nthTok`);
  - the Reporting Engine routes with `std::string::find` over the whole
    buffer; we model `find` as `cppFind`, the index of the first
    occurrence of the pattern;
  - each handler builds `status line, Content-Type, Content-Length,
    Access-Control-Allow-Origin, blank line, body`; `httpResponse`
    reproduces that envelope, with `Content-Length` the byte length of
    the body exactly as C++ `std::string::length` counts it;
  - the current wall-clock string produced by `getCurrentTimestamp` is
    passed in as an explicit parameter `ts`; the Reporting Engine never
    reads the clock, so its request handling ignores that parameter;
  - socket reads that fail deliver `Option.none`; per-connection
    processing and its stdout logging become pure functions, and the
    accept loop becomes a fold over a list of connection events.
-/

/-- C locale whitespace, the separator set used by `istringstream >>`:
space, tab, newline, vertical tab, form feed, carriage return. -/
def isWS (c : Char) : Bool :=
  c = ' ' || c = '\t' || c = '\n' || c = '\x0b' || c = '\x0c' || c = '\r'

/-- Drop leading whitespace (the skipping phase of `operator>>`). -/
def dropWS : List Char → List Char
  | [] => []
  | c :: cs => if isWS c then dropWS cs else c :: cs

/-- Take the maximal leading run of non-whitespace characters. -/
def takeTok : List Char → List Char
  | [] => []
  | c :: cs => if isWS c then [] else c :: takeTok cs

/-- Drop the maximal leading run of non-whitespace characters. -/
def dropTok : List Char → List Char
  | [] => []
  | c :: cs => if isWS c then c :: cs else dropTok cs

/-- The n-th whitespace-separated token of a character list; `[]` when the
input runs out, matching the empty string a failed `>>` leaves behind. -/
def nthTok : Nat → List Char → List Char
  | 0, l => takeTok (dropWS l)
  | n + 1, l => nthTok n (dropTok (dropWS l))

/-- The n-th whitespace-separated token of a string. -/
def tokenStr (n : Nat) (s : String) : String :=
  String.mk (nthTok n s.data)

/-- `startsWith pat l` : `pat` is an initial segment of `l`. -/
def startsWith : List Char → List Char → Bool
  | [], _ => true
  | _ :: _, [] => false
  | a :: as, b :: bs => a = b && startsWith as bs

/-- Model of C++ `std::string::find`: index of the first occurrence of
`pat` in `text`, `none` standing for `std::string::npos`. -/
def cppFind (pat : List Char) : List Char → Option Nat
  | [] => if startsWith pat [] then some 0 else none
  | c :: cs =>
    if startsWith pat (c :: cs) then some 0
    else (cppFind pat cs).map (fun i => i + 1)

/-- `pat` occurs somewhere inside `text`. -/
def occursIn (pat text : List Char) : Prop :=
  ∃ i, startsWith pat (List.drop i text) = true

/-- The characters of a buffer up to the first CR or LF: its request line. -/
def takeLine (l : List Char) : List Char :=
  List.takeWhile (fun c => !(c = '\r' || c = '\n')) l

/-- The first line of a string (status line of a response, request line of
a request). -/
def firstLineStr (s : String) : String :=
  String.mk (takeLine s.data)

/-- The HTTP envelope every stringstream-built handler of both services
produces: status line, `Content-Type: application/json`,
`Content-Length` equal to the byte count of the body,
`Access-Control-Allow-Origin: *`, blank line, body. -/
def httpResponse (statusLine body : String) : String :=
  statusLine ++ "\r\n" ++
  "Content-Type: application/json\r\n" ++
  "Content-Length: " ++ toString body.utf8ByteSize ++ "\r\n" ++
  "Access-Control-Allow-Origin: *\r\n" ++
  "\r\n" ++ body

namespace Reporting

/-- Body of the Reporting Engine health response (main.cpp line 23). -/
def healthBody : String :=
  "\x7b\"status\":\"healthy\",\"service\":\"Reporting Engine\",\"version\":\"1.0.0\"\x7d"

/-- Body of the Reporting Engine root response (main.cpp line 37). -/
def rootBody : String :=
  "\x7b\"service\":\"Finance Reporting Engine\",\"version\":\"1.0.0\",\"status\":\"running\",\"endpoints\":\x7b\"/health\":\"Health check\",\"/reports\":\"Generate reports\"\x7d\x7d"

/-- `handleHealthCheck` of the Reporting Engine (main.cpp lines 22-34). -/
def handleHealthCheck : String :=
  httpResponse "HTTP/1.1 200 OK" healthBody

/-- `handleRootRequest` of the Reporting Engine (main.cpp lines 36-48). -/
def handleRootRequest : String :=
  httpResponse "HTTP/1.1 200 OK" rootBody

/-- The literal written for unmatched buffers (main.cpp line 105):
no Content-Type, no CORS header, empty body. -/
def notFoundResponse : String :=
  "HTTP/1.1 404 Not Found\r\nContent-Length: 0\r\n\r\n"

/-- Routing of the Reporting Engine main loop (main.cpp lines 100-106):
`request.find("GET /health")`, then `request.find("GET /")`, each over the
whole buffer, else the bare 404 literal. -/
def route (request : String) : String :=
  if (cppFind ("GET /health").data request.data).isSome then handleHealthCheck
  else if (cppFind ("GET /").data request.data).isSome then handleRootRequest
  else notFoundResponse

/-- One accepted connection of the Reporting Engine (main.cpp lines
94-109): the return value of `read` is never checked, so a failed read
leaves the zeroed buffer and the request string is empty; the response is
then computed by `route`.  The Reporting Engine never reads the clock, so
the ambient time `now` is unused. -/
def serve (_now : String) (input : Option String) : String :=
  let request := match input with
    | none => ""
    | some b => b
  route request

end Reporting

namespace Analytics

/-- Body of the Analytics Engine health response (main.cpp lines 35-40),
with the `getCurrentTimestamp()` string `ts` interpolated. -/
def healthBody (ts : String) : String :=
  "\x7b\n  \"status\": \"healthy\",\n  \"service\": \"Analytics Engine\",\n  \"version\": \"1.0.0\",\n  \"timestamp\": \"" ++ ts ++ "\"\n\x7d"

/-- Body of the Analytics Engine root response (main.cpp lines 54-70). -/
def rootBody : String :=
  "\x7b\n  \"service\": \"Finance Analytics Engine\",\n  \"version\": \"1.0.0\",\n  \"description\": \"High-performance C++ analytics engine for financial calculations\",\n  \"endpoints\": \x7b\n    \"health\": \"GET /health\",\n    \"spending_analysis\": \"GET /spending-analysis\",\n    \"trends\": \"GET /trends\",\n    \"predictions\": \"GET /predictions\"\n  \x7d,\n  \"capabilities\": [\n    \"Real-time expense analysis\",\n    \"Trend detection\",\n    \"Statistical calculations\",\n    \"Predictive modeling\"\n  ]\n\x7d"

/-- Body of the spending-analysis response (main.cpp lines 85-103),
with the timestamp interpolated at `generated_at`. -/
def spendingBody (ts : String) : String :=
  "\x7b\n  \"analysis\": \x7b\n    \"total_expenses\": 2847.32,\n    \"average_daily_spending\": 94.91,\n    \"spending_trend\": \"increasing\",\n    \"top_categories\": [\n      \x7b\"category\": \"Food & Dining\", \"amount\": 856.23, \"percentage\": 30.1\x7d,\n      \x7b\"category\": \"Transportation\", \"amount\": 445.67, \"percentage\": 15.6\x7d,\n      \x7b\"category\": \"Shopping\", \"amount\": 398.12, \"percentage\": 14.0\x7d\n    ],\n    \"insights\": [\n      \"Spending increased by 12% compared to last month\",\n      \"Food expenses are above average\",\n      \"Transportation costs are stable\"\n    ]\n  \x7d,\n  \"generated_at\": \"" ++ ts ++ "\",\n  \"engine\": \"Analytics Engine v1.0\"\n\x7d"

/-- Body of the trends response (main.cpp lines 118-137). -/
def trendsBody (ts : String) : String :=
  "\x7b\n  \"trends\": \x7b\n    \"monthly_trend\": \x7b\n      \"direction\": \"upward\",\n      \"percentage_change\": 8.5,\n      \"confidence\": 0.87\n    \x7d,\n    \"category_trends\": [\n      \x7b\"category\": \"Food & Dining\", \"trend\": \"increasing\", \"change\": 15.2\x7d,\n      \x7b\"category\": \"Transportation\", \"trend\": \"stable\", \"change\": -2.1\x7d,\n      \x7b\"category\": \"Entertainment\", \"trend\": \"decreasing\", \"change\": -8.7\x7d\n    ],\n    \"seasonal_patterns\": \x7b\n      \"peak_months\": [\"December\", \"January\"],\n      \"low_months\": [\"February\", \"March\"]\n    \x7d\n  \x7d,\n  \"analysis_period\": \"last_12_months\",\n  \"generated_at\": \"" ++ ts ++ "\"\n\x7d"

/-- Body of the predictions response (main.cpp lines 152-177). -/
def predictionsBody (ts : String) : String :=
  "\x7b\n  \"predictions\": \x7b\n    \"next_month_spending\": \x7b\n      \"estimated_total\": 3150.50,\n      \"confidence_interval\": \x7b\n        \"lower\": 2890.00,\n        \"upper\": 3410.00\n      \x7d,\n      \"confidence_level\": 0.85\n    \x7d,\n    \"budget_alerts\": [\n      \x7b\n        \"category\": \"Food & Dining\",\n        \"risk_level\": \"high\",\n        \"predicted_overspend\": 156.78\n      \x7d\n    ],\n    \"recommendations\": [\n      \"Consider reducing dining out expenses\",\n      \"Transportation costs are well managed\",\n      \"Set a stricter budget for shopping\"\n    ]\n  \x7d,\n  \"model_version\": \"1.0\",\n  \"generated_at\": \"" ++ ts ++ "\"\n\x7d"

/-- Body of the Analytics Engine 404 response (main.cpp lines 191-194). -/
def err404Body : String :=
  "\x7b\n  \"error\": \"Endpoint not found\",\n  \"available_endpoints\": [\"/health\", \"/\", \"/spending-analysis\", \"/trends\", \"/predictions\"]\n\x7d"

/-- `handleHealthCheck` (main.cpp lines 34-51). -/
def handleHealthCheck (ts : String) : String :=
  httpResponse "HTTP/1.1 200 OK" (healthBody ts)

/-- `handleRootRequest` (main.cpp lines 53-81). -/
def handleRootRequest : String :=
  httpResponse "HTTP/1.1 200 OK" rootBody

/-- `handleSpendingAnalysis` (main.cpp lines 83-114). -/
def handleSpendingAnalysis (ts : String) : String :=
  httpResponse "HTTP/1.1 200 OK" (spendingBody ts)

/-- `handleTrends` (main.cpp lines 116-148). -/
def handleTrends (ts : String) : String :=
  httpResponse "HTTP/1.1 200 OK" (trendsBody ts)

/-- `handlePredictions` (main.cpp lines 150-188). -/
def handlePredictions (ts : String) : String :=
  httpResponse "HTTP/1.1 200 OK" (predictionsBody ts)

/-- `handle404` (main.cpp lines 190-205). -/
def handle404 : String :=
  httpResponse "HTTP/1.1 404 Not Found" err404Body

/-- Route dispatch of `handleClient` (main.cpp lines 226-239): sequential
string comparison of the parsed path against the five known literals. -/
def route (ts path : String) : String :=
  if path = "/health" then handleHealthCheck ts
  else if path = "/" then handleRootRequest
  else if path = "/spending-analysis" then handleSpendingAnalysis ts
  else if path = "/trends" then handleTrends ts
  else if path = "/predictions" then handlePredictions ts
  else handle404

/-- `handleClient` (main.cpp lines 207-244).  `input = none` models
`bytes_read <= 0`: the socket is closed and nothing is logged or sent.
Otherwise `method` and `path` are the first two whitespace tokens of the
buffer (the `istringstream` extraction), one line is printed to stdout,
and the routed response is sent.  Result: (stdout lines, sent response). -/
def handleClient (ts : String) (input : Option String) : List String × Option String :=
  match input with
  | none => ([], none)
  | some request =>
    let method := tokenStr 0 request
    let path := tokenStr 1 request
    (["Request: " ++ method ++ " " ++ path], some (route ts path))

end Analytics

/-- A well-formed token: non-empty strings of non-whitespace characters
are what `>>` extracts. -/
def noWS (l : List Char) : Bool := l.all (fun c => !(isWS c))

/-- Events seen by an accept loop: a failed `accept`, or an accepted
connection whose read yields `input` (`none` for a failed read). -/
inductive ConnEvent
  | acceptFail
  | conn (input : Option String)

/-- Accept loop of the Analytics Engine (main.cpp lines 293-308) run over
a finite schedule of events while `running` holds: a failed accept logs
"Accept failed" and continues with the next iteration; an accepted
connection is handled by `handleClient`.  Result: (stderr/stdout log
lines, responses sent to clients). -/
def Analytics.serverLoop (ts : String) : List ConnEvent → List String × List String
  | [] => ([], [])
  | ConnEvent.acceptFail :: rest =>
    let r := Analytics.serverLoop ts rest
    ("Accept failed" :: r.fst, r.snd)
  | ConnEvent.conn input :: rest =>
    let c := Analytics.handleClient ts input
    let r := Analytics.serverLoop ts rest
    (c.fst ++ r.fst,
      match c.snd with
      | none => r.snd
      | some resp => resp :: r.snd)

/-- Accept loop of the Reporting Engine (main.cpp lines 82-110): a failed
accept logs "Accept failed" and continues; an accepted connection always
gets exactly one response from `serve` (read failures are not detected),
and nothing is logged for it. -/
def Reporting.serverLoop : List ConnEvent → List String × List String
  | [] => ([], [])
  | ConnEvent.acceptFail :: rest =>
    let r := Reporting.serverLoop rest
    ("Accept failed" :: r.fst, r.snd)
  | ConnEvent.conn input :: rest =>
    let r := Reporting.serverLoop rest
    (r.fst, Reporting.serve "" input :: r.snd)

/-- How a run that passed socket setup ends: a SIGINT/SIGTERM signal
(`signalHandler` prints a banner, closes the socket and calls `exit(0)`),
or the accept loop falling through once `running` is false (`return 0`). -/
inductive Shutdown
  | signal
  | loopEnd

/-- Exit status of Analytics Engine `main` (main.cpp lines 246-311) as a
function of which setup step succeeds and how the run ends: `socket`,
`setsockopt`, `bind` and `listen` failures return 1 in that order;
otherwise the process reaches the loop and terminates with status 0. -/
def Analytics.mainExit (socketOk sockoptOk bindOk listenOk : Bool) (sh : Shutdown) : Nat :=
  if socketOk = false then 1
  else if sockoptOk = false then 1
  else if bindOk = false then 1
  else if listenOk = false then 1
  else
    match sh with
    | Shutdown.signal => 0
    | Shutdown.loopEnd => 0

/-- Exit status of Reporting Engine `main` (main.cpp lines 50-113):
`socket`, `bind` and `listen` failures return 1 (the `setsockopt` result
is ignored there); otherwise the process terminates with status 0. -/
def Reporting.mainExit (socketOk bindOk listenOk : Bool) (sh : Shutdown) : Nat :=
  if socketOk = false then 1
  else if bindOk = false then 1
  else if listenOk = false then 1
  else
    match sh with
    | Shutdown.signal => 0
    | Shutdown.loopEnd => 0

theorem takeTok_token (m : List Char) (w : Char) (rest : List Char)
    (hm : noWS m = true) (hw : isWS w = true) :
    takeTok (m ++ w :: rest) = m := by
  induction m with
  | nil => simp [takeTok, hw]
  | cons c cs ih =>
    simp only [noWS, List.all_cons, Bool.and_eq_true, Bool.not_eq_true'] at hm
    simpa [takeTok, hm.1] using ih (by simp [noWS, hm.2])

theorem dropTok_token (m : List Char) (w : Char) (rest : List Char)
    (hm : noWS m = true) (hw : isWS w = true) :
    dropTok (m ++ w :: rest) = w :: rest := by
  induction m with
  | nil => simp [dropTok, hw]
  | cons c cs ih =>
    simp only [noWS, List.all_cons, Bool.and_eq_true, Bool.not_eq_true'] at hm
    simpa [dropTok, hm.1] using ih (by simp [noWS, hm.2])

theorem dropWS_token (m : List Char) (l : List Char) (hm : noWS m = true) (hne : m ≠ []) :
    dropWS (m ++ l) = m ++ l := by
  cases m with
  | nil => exact absurd rfl hne
  | cons c cs =>
    simp only [noWS, List.all_cons, Bool.and_eq_true, Bool.not_eq_true'] at hm
    simp [dropWS, hm.1]

theorem dropWS_ws (c : Char) (l : List Char) (h : isWS c = true) :
    dropWS (c :: l) = dropWS l := by
  simp [dropWS, h]

/-- The first `>>` extraction from `token ++ " " ++ rest` yields the token. -/
theorem nthTok_zero_token (m : List Char) (rest : List Char)
    (hm : noWS m = true) (hne : m ≠ []) :
    nthTok 0 (m ++ ' ' :: rest) = m := by
  show takeTok (dropWS (m ++ ' ' :: rest)) = m
  rw [dropWS_token m (' ' :: rest) hm hne]
  exact takeTok_token m ' ' rest hm (by decide)

/-- Skipping the first token of `token ++ " " ++ rest` leaves the
tokenisation of `rest`: the second extraction never looks at the token. -/
theorem nthTok_one_token (m : List Char) (rest : List Char)
    (hm : noWS m = true) (hne : m ≠ []) :
    nthTok 1 (m ++ ' ' :: rest) = nthTok 0 rest := by
  show nthTok 0 (dropTok (dropWS (m ++ ' ' :: rest))) = nthTok 0 rest
  rw [dropWS_token m _ hm hne, dropTok_token m ' ' rest hm (by decide)]
  show takeTok (dropWS (' ' :: rest)) = takeTok (dropWS rest)
  rw [dropWS_ws ' ' rest (by decide)]

/-- `std::string::find` returns a position exactly when the pattern occurs
somewhere in the text. -/
theorem cppFind_isSome_iff (pat text : List Char) :
    (cppFind pat text).isSome = true ↔ occursIn pat text := by
  induction text with
  | nil =>
    by_cases h : startsWith pat [] = true
    · simp only [cppFind, h, if_true, Option.isSome_some, true_iff]
      exact ⟨0, by simpa using h⟩
    · simp only [Bool.not_eq_true] at h
      simp only [cppFind, h, Bool.false_eq_true, if_false, Option.isSome_none,
        false_iff]
      rintro ⟨i, hi⟩
      rw [List.drop_nil] at hi
      rw [h] at hi
      exact Bool.false_ne_true hi
  | cons c cs ih =>
    by_cases h : startsWith pat (c :: cs) = true
    · simp only [cppFind, h, if_true, Option.isSome_some, true_iff]
      exact ⟨0, h⟩
    · simp only [Bool.not_eq_true] at h
      simp only [cppFind, h, Bool.false_eq_true, if_false]
      rw [show (Option.map (fun i => i + 1) (cppFind pat cs)).isSome = (cppFind pat cs).isSome from by cases cppFind pat cs <;> rfl]
      rw [ih]
      constructor
      · rintro ⟨j, hj⟩
        exact ⟨j + 1, by simpa using hj⟩
      · rintro ⟨i, hi⟩
        cases i with
        | zero =>
          rw [List.drop_zero] at hi
          rw [h] at hi
          exact absurd hi Bool.false_ne_true
        | succ j => exact ⟨j, by simpa using hi⟩

/-- C2: for every known path of a service (Analytics Engine: /health, /,
/spending-analysis, /trends, /predictions; Reporting Engine: /health, /)
the response has status line "HTTP/1.1 200 OK" and its body is exactly the
literal JSON fixture defined for that path, with the current timestamp
substituted where the fixture interpolates one. -/
theorem claim2_known_paths_ok (ts : String) :
    (Analytics.handleClient ts (some "GET /health HTTP/1.1\r\nHost: localhost\r\n\r\n")).snd
      = some (httpResponse "HTTP/1.1 200 OK" (Analytics.healthBody ts)) ∧
    (Analytics.handleClient ts (some "GET / HTTP/1.1\r\nHost: localhost\r\n\r\n")).snd
      = some (httpResponse "HTTP/1.1 200 OK" Analytics.rootBody) ∧
    (Analytics.handleClient ts (some "GET /spending-analysis HTTP/1.1\r\nHost: localhost\r\n\r\n")).snd
      = some (httpResponse "HTTP/1.1 200 OK" (Analytics.spendingBody ts)) ∧
    (Analytics.handleClient ts (some "GET /trends HTTP/1.1\r\nHost: localhost\r\n\r\n")).snd
      = some (httpResponse "HTTP/1.1 200 OK" (Analytics.trendsBody ts)) ∧
    (Analytics.handleClient ts (some "GET /predictions HTTP/1.1\r\nHost: localhost\r\n\r\n")).snd
      = some (httpResponse "HTTP/1.1 200 OK" (Analytics.predictionsBody ts)) ∧
    Reporting.serve ts (some "GET /health HTTP/1.1\r\nHost: localhost\r\n\r\n")
      = httpResponse "HTTP/1.1 200 OK" Reporting.healthBody ∧
    Reporting.serve ts (some "GET / HTTP/1.1\r\nHost: localhost\r\n\r\n")
      = httpResponse "HTTP/1.1 200 OK" Reporting.rootBody :=
  ⟨rfl, rfl, rfl, rfl, rfl, rfl, rfl⟩

/-- C3: a GET request for /reports is routed by the Reporting Engine's
`request.find("GET /")` branch to the root handler: the response is the
root payload, not a distinct reports payload, although that very payload
advertises "/reports" as an endpoint. -/
theorem claim3_reports_routed_to_root :
    Reporting.serve "T" (some "GET /reports HTTP/1.1\r\nHost: localhost\r\n\r\n")
      = Reporting.handleRootRequest ∧
    (cppFind (String.data "/reports") Reporting.rootBody.data).isSome = true ∧
    Reporting.handleRootRequest ≠ Reporting.handleHealthCheck :=
  ⟨rfl, by decide, by decide⟩

/-- C6: the process exit code is 1 whenever socket setup (create, bind or
listen) fails, 0 on SIGINT/SIGTERM shutdown after setup, and no status
other than 0 and 1 is reachable on any path through main, in both
services.  Here `a b c d` are success of socket / setsockopt / bind /
listen. -/
theorem claim6_exit_codes (a b c d : Bool) (sh : Shutdown) :
    ((a = false ∨ c = false ∨ d = false) → Analytics.mainExit a b c d sh = 1) ∧
    (a = true → b = true → c = true → d = true → Analytics.mainExit a b c d Shutdown.signal = 0) ∧
    (Analytics.mainExit a b c d sh = 0 ∨ Analytics.mainExit a b c d sh = 1) ∧
    ((a = false ∨ c = false ∨ d = false) → Reporting.mainExit a c d sh = 1) ∧
    (a = true → c = true → d = true → Reporting.mainExit a c d Shutdown.signal = 0) ∧
    (Reporting.mainExit a c d sh = 0 ∨ Reporting.mainExit a c d sh = 1) := by
  cases a <;> cases b <;> cases c <;> cases d <;> cases sh <;>
    simp [Analytics.mainExit, Reporting.mainExit]

/-- Witness for C6 at a concrete input: a failed socket creation exits
with status 1. -/
theorem claim6_witness : Analytics.mainExit false true true true Shutdown.loopEnd = 1 :=
  (claim6_exit_codes false true true true Shutdown.loopEnd).1 (Or.inl rfl)

/-- C8: the Reporting Engine's responses do not depend on the current
time at all, while the Analytics Engine substitutes the timestamp into
its bodies: two runs at different times differ. -/
theorem claim8_timestamp_only_analytics :
    (∀ t1 t2 : String, ∀ input : Option String,
        Reporting.serve t1 input = Reporting.serve t2 input) ∧
    (∃ t1 t2 buf : String,
        (Analytics.handleClient t1 (some buf)).snd
          ≠ (Analytics.handleClient t2 (some buf)).snd) :=
  ⟨fun _ _ _ => rfl,
   ⟨"Mon Jun  2 10:00:00 2025", "Tue Jun  3 11:30:00 2025",
    "GET /health HTTP/1.1\r\n\r\n", by decide⟩⟩

/-- C9: Analytics Engine dispatch is independent of the HTTP method: two
buffers whose request lines differ only in the (non-empty,
whitespace-free) method token produce the same response. -/
theorem claim9_method_independent (ts : String) (m1 m2 rest : List Char)
    (h1 : noWS m1 = true) (h1e : m1 ≠ []) (h2 : noWS m2 = true) (h2e : m2 ≠ []) :
    (Analytics.handleClient ts (some (String.mk (m1 ++ ' ' :: rest)))).snd
      = (Analytics.handleClient ts (some (String.mk (m2 ++ ' ' :: rest)))).snd := by
  have p1 : tokenStr 1 (String.mk (m1 ++ ' ' :: rest)) = String.mk (nthTok 0 rest) := by
    unfold tokenStr
    rw [show (String.mk (m1 ++ ' ' :: rest)).data = m1 ++ ' ' :: rest from rfl]
    rw [nthTok_one_token m1 rest h1 h1e]
  have p2 : tokenStr 1 (String.mk (m2 ++ ' ' :: rest)) = String.mk (nthTok 0 rest) := by
    unfold tokenStr
    rw [show (String.mk (m2 ++ ' ' :: rest)).data = m2 ++ ' ' :: rest from rfl]
    rw [nthTok_one_token m2 rest h2 h2e]
  simp [Analytics.handleClient, p1, p2]

/-- Witness for C9: GET /health and POST /health receive the same
response. -/
theorem claim9_witness :
    (Analytics.handleClient "T" (some (String.mk
        (String.data "GET" ++ ' ' :: String.data "/health HTTP/1.1\r\nHost: x\r\n\r\n")))).snd
      = (Analytics.handleClient "T" (some (String.mk
        (String.data "POST" ++ ' ' :: String.data "/health HTTP/1.1\r\nHost: x\r\n\r\n")))).snd :=
  claim9_method_independent "T" (String.data "GET") (String.data "POST")
    (String.data "/health HTTP/1.1\r\nHost: x\r\n\r\n")
    (by decide) (by decide) (by decide) (by decide)

/-- C10: Reporting Engine routing is substring search over the whole read
buffer with fixed precedence: any buffer in which "GET /health" occurs
anywhere yields the health response; otherwise an occurrence of "GET /"
anywhere yields the root response; buffers containing neither yield the
404 response. -/
theorem claim10_substring_routing (request : String) :
    (occursIn (String.data "GET /health") request.data →
        Reporting.route request = Reporting.handleHealthCheck) ∧
    (¬ occursIn (String.data "GET /health") request.data →
      occursIn (String.data "GET /") request.data →
        Reporting.route request = Reporting.handleRootRequest) ∧
    (¬ occursIn (String.data "GET /health") request.data →
      ¬ occursIn (String.data "GET /") request.data →
        Reporting.route request = Reporting.notFoundResponse) := by
  have boolOf : ∀ pat : String, ¬ occursIn (String.data pat) request.data →
      (cppFind (String.data pat) request.data).isSome = false := by
    intro pat hno
    cases hx : (cppFind (String.data pat) request.data).isSome
    · rfl
    · exact absurd ((cppFind_isSome_iff _ _).mp hx) hno
  refine ⟨?_, ?_, ?_⟩
  · intro h
    have hh : (cppFind (String.data "GET /health") request.data).isSome = true :=
      (cppFind_isSome_iff _ _).mpr h
    simp [Reporting.route, hh]
  · intro h1 h2
    have hh1 := boolOf "GET /health" h1
    have hh2 : (cppFind (String.data "GET /") request.data).isSome = true :=
      (cppFind_isSome_iff _ _).mpr h2
    simp [Reporting.route, hh1, hh2]
  · intro h1 h2
    have hh1 := boolOf "GET /health" h1
    have hh2 := boolOf "GET /" h2
    simp [Reporting.route, hh1, hh2]

/-- Witness for C10: "GET /health" hidden inside a header of a POST
request still routes to the health handler. -/
theorem claim10_witness :
    Reporting.route "POST /x HTTP/1.1\r\nX-Note: GET /health\r\n\r\n"
      = Reporting.handleHealthCheck :=
  (claim10_substring_routing "POST /x HTTP/1.1\r\nX-Note: GET /health\r\n\r\n").1
    ((cppFind_isSome_iff _ _).mp (by decide))

/-- C1 (counterexample): the Reporting Engine answers the unrecognized
path /nope with status line "HTTP/1.1 200 OK" (the root payload), not 404
with the standard error JSON as the claim requires for both services. -/
theorem claim1_counterexample :
    firstLineStr (Reporting.serve "T" (some "GET /nope HTTP/1.1\r\n\r\n"))
      = "HTTP/1.1 200 OK" ∧
    firstLineStr (Reporting.serve "T" (some "GET /nope HTTP/1.1\r\n\r\n"))
      ≠ "HTTP/1.1 404 Not Found" :=
  ⟨by decide, by decide⟩

/-- C1 (amended): in the Analytics Engine every request whose parsed path
is not one of the five known paths gets the 404 response with the
standard JSON error body listing the valid endpoints.  The Reporting
Engine has no such rule: a request line with the unknown path /nope still
contains "GET /" and receives the 200 root response, and a buffer
matching neither search string gets a headers-only 404 with empty body. -/
theorem claim1_amended_404 (ts path : String)
    (h1 : path ≠ "/health") (h2 : path ≠ "/") (h3 : path ≠ "/spending-analysis")
    (h4 : path ≠ "/trends") (h5 : path ≠ "/predictions") :
    Analytics.route ts path = httpResponse "HTTP/1.1 404 Not Found" Analytics.err404Body ∧
    Reporting.serve ts (some "GET /nope HTTP/1.1\r\n\r\n") = Reporting.handleRootRequest ∧
    Reporting.serve ts (some "DELETE /x HTTP/1.1\r\n\r\n") = Reporting.notFoundResponse := by
  refine ⟨?_, rfl, rfl⟩
  simp [Analytics.route, h1, h2, h3, h4, h5, Analytics.handle404]

/-- Witness for C1 (amended) at the unknown path /nope. -/
theorem claim1_witness :
    Analytics.route "T" "/nope" = httpResponse "HTTP/1.1 404 Not Found" Analytics.err404Body ∧
    Reporting.serve "T" (some "GET /nope HTTP/1.1\r\n\r\n") = Reporting.handleRootRequest ∧
    Reporting.serve "T" (some "DELETE /x HTTP/1.1\r\n\r\n") = Reporting.notFoundResponse :=
  claim1_amended_404 "T" "/nope" (by decide) (by decide) (by decide) (by decide) (by decide)

/-- C4 (counterexample): the Reporting Engine's 404 response, which is
written to clients, carries neither a Content-Type header nor the
permissive CORS header, against the claim that every written response
carries both. -/
theorem claim4_counterexample :
    (cppFind (String.data "Content-Type") Reporting.notFoundResponse.data).isSome = false ∧
    (cppFind (String.data "Access-Control-Allow-Origin") Reporting.notFoundResponse.data).isSome = false :=
  ⟨by decide, by decide⟩

/-- C4 (amended): every Analytics Engine response, and every Reporting
Engine response other than its bare 404 literal, is the full envelope:
status line, "Content-Type: application/json", a Content-Length equal to
the byte length of the body, "Access-Control-Allow-Origin: *", a blank
line and the JSON body.  The Reporting Engine 404 is only the status
line, a "Content-Length: 0" header and a blank line, with no body. -/
theorem claim4_amended_envelope (ts : String) (input : Option String) (r : String) :
    ((Analytics.handleClient ts input).snd = some r → ∃ s b, r = httpResponse s b) ∧
    (Reporting.serve ts input ≠ Reporting.notFoundResponse →
      ∃ s b, Reporting.serve ts input = httpResponse s b) ∧
    Reporting.notFoundResponse = "HTTP/1.1 404 Not Found\r\nContent-Length: 0\r\n\r\n" := by
  have routeShape : ∀ path : String, ∃ s b, Analytics.route ts path = httpResponse s b := by
    intro path
    unfold Analytics.route
    split
    · exact ⟨_, _, rfl⟩
    · split
      · exact ⟨_, _, rfl⟩
      · split
        · exact ⟨_, _, rfl⟩
        · split
          · exact ⟨_, _, rfl⟩
          · split
            · exact ⟨_, _, rfl⟩
            · exact ⟨_, _, rfl⟩
  refine ⟨?_, ?_, rfl⟩
  · intro hr
    match input with
    | none => simp [Analytics.handleClient] at hr
    | some request =>
      have : r = Analytics.route ts (tokenStr 1 request) := by
        simpa [Analytics.handleClient] using hr.symm
      rw [this]
      exact routeShape _
  · intro hne
    have : ∀ request : String, Reporting.route request ≠ Reporting.notFoundResponse →
        ∃ s b, Reporting.route request = httpResponse s b := by
      intro request hq
      unfold Reporting.route
      split
      · exact ⟨_, _, rfl⟩
      · split
        · exact ⟨_, _, rfl⟩
        · exact absurd (by unfold Reporting.route at hq ⊢; revert hq; split <;> simp_all) hq
    match input with
    | none => exact this "" hne
    | some b => exact this b hne

/-- Witness for C4 (amended): the health response to a concrete request
decomposes as the envelope. -/
theorem claim4_witness :
    ∃ s b, httpResponse "HTTP/1.1 200 OK" (Analytics.healthBody "T") = httpResponse s b :=
  (claim4_amended_envelope "T" (some "GET /health HTTP/1.1\r\n\r\n")
    (httpResponse "HTTP/1.1 200 OK" (Analytics.healthBody "T"))).1 (by decide)

/-- C5 (counterexample): two Reporting Engine buffers with the same
request line "POST /submit HTTP/1.1", differing only in the body, receive
different responses: the body "GET /health" is found by the substring
search. -/
theorem claim5_counterexample :
    firstLineStr "POST /submit HTTP/1.1\r\nContent-Length: 5\r\n\r\nhello"
      = firstLineStr "POST /submit HTTP/1.1\r\nContent-Length: 11\r\n\r\nGET /health" ∧
    Reporting.serve "T" (some "POST /submit HTTP/1.1\r\nContent-Length: 5\r\n\r\nhello")
      ≠ Reporting.serve "T" (some "POST /submit HTTP/1.1\r\nContent-Length: 11\r\n\r\nGET /health") :=
  ⟨by decide, by decide⟩

/-- C5 (amended): in the Analytics Engine, for buffers whose request line
is `method SP path SP ...`, everything after the second separator
(version, headers, body) never influences dispatch: log and response
coincide.  In the Reporting Engine the whole buffer, headers and body
included, is searched, so headers and body can change the routing. -/
theorem claim5_amended_headers_ignored (ts : String) (m p r1 r2 : List Char)
    (hm : noWS m = true) (hme : m ≠ []) (hp : noWS p = true) (hpe : p ≠ []) :
    Analytics.handleClient ts (some (String.mk (m ++ ' ' :: (p ++ ' ' :: r1))))
      = Analytics.handleClient ts (some (String.mk (m ++ ' ' :: (p ++ ' ' :: r2)))) := by
  have t0 : ∀ r : List Char,
      tokenStr 0 (String.mk (m ++ ' ' :: (p ++ ' ' :: r))) = String.mk m := by
    intro r
    unfold tokenStr
    rw [show (String.mk (m ++ ' ' :: (p ++ ' ' :: r))).data = m ++ ' ' :: (p ++ ' ' :: r) from rfl]
    rw [nthTok_zero_token m _ hm hme]
  have t1 : ∀ r : List Char,
      tokenStr 1 (String.mk (m ++ ' ' :: (p ++ ' ' :: r))) = String.mk p := by
    intro r
    unfold tokenStr
    rw [show (String.mk (m ++ ' ' :: (p ++ ' ' :: r))).data = m ++ ' ' :: (p ++ ' ' :: r) from rfl]
    rw [nthTok_one_token m _ hm hme]
    rw [nthTok_zero_token p r hp hpe]
  simp [Analytics.handleClient, t0, t1]

/-- Witness for C5 (amended): same request line `GET /trends HTTP/1.1`,
different headers and bodies, identical handling. -/
theorem claim5_witness :
    Analytics.handleClient "T" (some (String.mk (String.data "GET" ++ ' ' ::
        (String.data "/trends" ++ ' ' :: String.data "HTTP/1.1\r\nA: 1\r\n\r\n"))))
      = Analytics.handleClient "T" (some (String.mk (String.data "GET" ++ ' ' ::
        (String.data "/trends" ++ ' ' :: String.data "HTTP/1.1\r\nB: 2\r\n\r\nbody")))) :=
  claim5_amended_headers_ignored "T" (String.data "GET") (String.data "/trends")
    (String.data "HTTP/1.1\r\nA: 1\r\n\r\n") (String.data "HTTP/1.1\r\nB: 2\r\n\r\nbody")
    (by decide) (by decide) (by decide) (by decide)

/-- C7 (counterexample): a failed per-connection read in the Analytics
Engine is not logged at all: `handleClient` on `bytes_read <= 0` closes
the socket, producing no log line and no response, against the claim that
failed reads are logged. -/
theorem claim7_counterexample :
    (Analytics.handleClient "T" none).fst = [] ∧
    (Analytics.handleClient "T" none).snd = none :=
  ⟨rfl, rfl⟩

/-- C7 (amended): a failed accept (while running) is logged as
"Accept failed" and the loop continues with the next event; a failed read
never terminates the server but is not logged: the Analytics Engine
silently closes the client socket and serves the remaining events
unchanged, and the Reporting Engine does not detect the failure, sends
its 404 response for the empty buffer and continues. -/
theorem claim7_amended_loop_continues (ts : String) (rest : List ConnEvent) :
    Analytics.serverLoop ts (ConnEvent.acceptFail :: rest)
      = ("Accept failed" :: (Analytics.serverLoop ts rest).fst,
         (Analytics.serverLoop ts rest).snd) ∧
    Analytics.serverLoop ts (ConnEvent.conn none :: rest) = Analytics.serverLoop ts rest ∧
    Reporting.serverLoop (ConnEvent.acceptFail :: rest)
      = ("Accept failed" :: (Reporting.serverLoop rest).fst,
         (Reporting.serverLoop rest).snd) ∧
    Reporting.serverLoop (ConnEvent.conn none :: rest)
      = ((Reporting.serverLoop rest).fst,
         Reporting.notFoundResponse :: (Reporting.serverLoop rest).snd) :=
  ⟨rfl, rfl, rfl, rfl⟩

/-- Witness for C7 (amended) on a concrete schedule: a failed accept is
logged and the loop goes on. -/
theorem claim7_witness :
    Analytics.serverLoop "T" [ConnEvent.acceptFail]
      = ("Accept failed" :: (Analytics.serverLoop "T" []).fst,
         (Analytics.serverLoop "T" []).snd) :=
  (claim7_amended_loop_continues "T" []).1

/-- Witness for C2 at a concrete timestamp string. -/
theorem claim2_witness :
    (Analytics.handleClient "Mon Jun  2 10:00:00 2025"
        (some "GET /health HTTP/1.1\r\nHost: localhost\r\n\r\n")).snd
      = some (httpResponse "HTTP/1.1 200 OK"
          (Analytics.healthBody "Mon Jun  2 10:00:00 2025")) :=
  (claim2_known_paths_ok "Mon Jun  2 10:00:00 2025").1
